import Mathlib

/-!
Verification of the multi-provider LLM orchestration layer of the news
summarizer (`WEEK 2/Day 4`): cost tracking (`CostTracker`), budget
enforcement (`check_budget`), per-provider rate limiting (`_wait_openai`,
`_wait_cohere`), provider fallback (`ask_with_fallback`), per-article
summarization (`summarize_article`) and batch processing
(`process_articles`, `process_articles_async`).

The Python code is shallowly embedded: floats become exact rationals,
raised exceptions become an explicit error type threaded through `Except`,
mutable object state becomes explicit state passing, and the external
collaborators (the OpenAI / Cohere network clients, the tokenizer behind
`count_tokens`, and the wall clock) become oracle parameters.
-/

namespace Day4

/-- Exceptions raised in `llm_providers.py`.  In the source all of these are
plain `Exception` values distinguished only by their message:
`providerError` models an exception raised by an external API client call
(carrying that client's message), `budgetExceeded` models the exception
raised by `CostTracker.check_budget` (whose message is rendered from the
daily budget and the running total, its two determining values), and
`allProvidersFailed` models `raise Exception("All providers failed")`,
whose message is a constant string and hence carries no further data. -/
inductive PyError where
  | providerError (msg : String)
  | budgetExceeded (budget total : ℚ)
  | allProvidersFailed
deriving DecidableEq

/-- Decidable equality for `Except` values, used to evaluate concrete
executions of the embedded code. -/
instance exceptDecEq {ε α : Type} [DecidableEq ε] [DecidableEq α] :
    DecidableEq (Except ε α) := fun a b =>
  match a, b with
  | Except.ok x, Except.ok y =>
    if h : x = y then isTrue (by rw [h]) else isFalse (by simp [h])
  | Except.ok _, Except.error _ => isFalse (by simp)
  | Except.error _, Except.ok _ => isFalse (by simp)
  | Except.error x, Except.error y =>
    if h : x = y then isTrue (by rw [h]) else isFalse (by simp [h])

/-- Outcome of `CostTracker.check_budget`: `exceeded` models the raised
budget exception, `warning` models the printed non-fatal warning (the call
proceeds), `ok` models silently returning. -/
inductive BudgetStatus where
  | exceeded
  | warning
  | ok
deriving DecidableEq

/-- The static price table `PRICING` of `llm_providers.py` (dollars per
million tokens), as a partial map from model name to
(input price, output price).  The float literals 0.15, 0.60, 2.50, 10.00,
0.0375 and 0.15 of the source are written as the exact rationals they
denote. -/
def PRICING (model : String) : Option (ℚ × ℚ) :=
  if model = "gpt-4o-mini" then some (15/100, 60/100)
  else if model = "gpt-4o" then some (250/100, 1000/100)
  else if model = "command-r7b-12-2024" then some (375/10000, 15/100)
  else none

/-- One entry of `CostTracker.requests` (the dict appended by
`track_request`). -/
structure CostRecord where
  provider : String
  model : String
  input_tokens : ℤ
  output_tokens : ℤ
  cost : ℚ
deriving DecidableEq

/-- The mutable state of a `CostTracker` object. -/
structure CostTracker where
  total_cost : ℚ
  requests : List CostRecord
deriving DecidableEq

/-- `CostTracker.__init__`: zero total, no recorded requests. -/
def CostTracker.init : CostTracker :=
  { total_cost := 0, requests := [] }

/-- `CostTracker.track_request`: look up the model's pricing (defaulting to
the conservative `{"input": 3.0, "output": 15.0}` (exactly `(3, 15)`)
when the model is unlisted), compute the cost, add it to the running total, append a record,
and return the cost together with the updated tracker. -/
def track_request (t : CostTracker) (provider model : String)
    (input_tokens output_tokens : ℤ) : ℚ × CostTracker :=
  let pricing := (PRICING model).getD (3, 15)
  let input_cost := (input_tokens : ℚ) / 1000000 * pricing.1
  let output_cost := (output_tokens : ℚ) / 1000000 * pricing.2
  let cost := input_cost + output_cost
  (cost,
   { total_cost := t.total_cost + cost,
     requests := t.requests ++
       [{ provider := provider, model := model, input_tokens := input_tokens,
          output_tokens := output_tokens, cost := cost }] })

/-- The dictionary returned by `CostTracker.get_summary`. -/
structure CostSummary where
  total_requests : ℕ
  total_cost : ℚ
  total_input_tokens : ℤ
  total_output_tokens : ℤ
  average_cost : ℚ
deriving DecidableEq

/-- `CostTracker.get_summary`: a pure read of the tracker (the source method
only reads `self.requests` and `self.total_cost`); the average divides by
`max(len(requests), 1)` so an empty tracker yields `0`, not a
division-by-zero error. -/
def get_summary (t : CostTracker) : CostSummary :=
  { total_requests := t.requests.length,
    total_cost := t.total_cost,
    total_input_tokens := (t.requests.map CostRecord.input_tokens).sum,
    total_output_tokens := (t.requests.map CostRecord.output_tokens).sum,
    average_cost := t.total_cost / ((max t.requests.length 1 : ℕ) : ℚ) }

/-- `CostTracker.check_budget(daily_budget)`: raise when
`total_cost >= daily_budget`; otherwise print a warning when
`(total_cost / daily_budget) * 100 >= 90`; otherwise do nothing. -/
def check_budget (total_cost daily_budget : ℚ) : BudgetStatus :=
  if daily_budget ≤ total_cost then BudgetStatus.exceeded
  else if (90 : ℚ) ≤ total_cost / daily_budget * 100 then BudgetStatus.warning
  else BudgetStatus.ok

/-- Run a whole sequence of `track_request` calls
(provider, model, input tokens, output tokens) against a tracker. -/
def track_all (t : CostTracker) (calls : List (String × String × ℤ × ℤ)) :
    CostTracker :=
  calls.foldl
    (fun acc c => (track_request acc c.1 c.2.1 c.2.2.1 c.2.2.2).2) t

/-- The bookkeeping invariant of `CostTracker`: the running total equals the
sum of the costs of all appended records. -/
def cost_invariant (t : CostTracker) : Prop :=
  t.total_cost = (t.requests.map CostRecord.cost).sum

/-- The configuration values of `config.py` consumed by the orchestration
layer.  `OPENAI_MODEL` and `COHERE_MODEL` are the constants
`"gpt-4o-mini"` and `"command-r7b-12-2024"` in the source; `DAILY_BUDGET`
and the requests-per-minute quotas are read from the environment
(defaults 5.00, 500 and 50), so they are kept abstract here. -/
structure Config where
  OPENAI_MODEL : String
  COHERE_MODEL : String
  DAILY_BUDGET : ℚ
  OPENAI_RPM : ℚ
  COHERE_MODEL_RPM : ℚ
deriving DecidableEq

/-- `self.openai_interval = 60.0 / Config.OPENAI_RPM`. -/
def openai_interval (cfg : Config) : ℚ := 60 / cfg.OPENAI_RPM

/-- `self.cohere_interval = 60.0 / Config.COHERE_MODEL_RPM`. -/
def cohere_interval (cfg : Config) : ℚ := 60 / cfg.COHERE_MODEL_RPM

/-- The mutable state of an `LLMProviders` object, plus an explicit wall
clock `now` (the value `time.time()` would return if read at this point)
and a ghost trace `calls` recording, in order, which provider's API client
was actually invoked (appended exactly where the source performs the
network call).  `openai_last_call` and `cohere_last_call` start at `0` in
`__init__`. -/
structure LLMState where
  cost_tracker : CostTracker
  openai_last_call : ℚ
  cohere_last_call : ℚ
  now : ℚ
  calls : List String
deriving DecidableEq

/-- `LLMProviders._wait_openai` with an explicit clock: compute the time
elapsed since the last OpenAI call; if it is below the interval, sleep for
the difference (`time.sleep` may oversleep by `d_sleep ≥ 0`); then record
`self.openai_last_call = time.time()`, where reading the clock after the
sleep may observe a further `d_read ≥ 0` of delay.  The recorded timestamp
is also the clock value at which the call returns. -/
def wait_openai (cfg : Config) (d_sleep d_read : ℚ) (s : LLMState) :
    LLMState :=
  let elapsed := s.now - s.openai_last_call
  let woken :=
    if elapsed < openai_interval cfg then
      s.now + (openai_interval cfg - elapsed) + d_sleep
    else s.now
  let stamp := woken + d_read
  { s with now := stamp, openai_last_call := stamp }

/-- `LLMProviders._wait_cohere`, same shape as `wait_openai` but for the
Cohere timestamp and interval. -/
def wait_cohere (cfg : Config) (d_sleep d_read : ℚ) (s : LLMState) :
    LLMState :=
  let elapsed := s.now - s.cohere_last_call
  let woken :=
    if elapsed < cohere_interval cfg then
      s.now + (cohere_interval cfg - elapsed) + d_sleep
    else s.now
  let stamp := woken + d_read
  { s with now := stamp, cohere_last_call := stamp }

/-- The external collaborators of one provider call: `api` is the network
client call (chat completion) returning the response text or raising with
a message; `tok` is `count_tokens(text, model)` — token counting is
delegated to an external tokenizer (with a character-count fallback) and
is explicitly out of scope, so it is an oracle here; `d_sleep` and
`d_read` are the clock drifts of this call's rate-limit wait. -/
structure AskEnv where
  api : String → Except String String
  tok : String → String → ℕ
  d_sleep : ℚ
  d_read : ℚ

/-- `LLMProviders.ask_openai(prompt)` (with the default `model=None`, so
`model = Config.OPENAI_MODEL`): rate-limit wait, count input tokens, call
the client (a raise propagates as `providerError` with nothing tracked),
count output tokens, `track_request`, then `check_budget` — whose raise
propagates as `budgetExceeded` while a warning lets the text be
returned. -/
def ask_openai (cfg : Config) (env : AskEnv) (prompt : String)
    (s : LLMState) : Except PyError String × LLMState :=
  let model := cfg.OPENAI_MODEL
  let s1 := wait_openai cfg env.d_sleep env.d_read s
  let input_tokens := env.tok prompt model
  let s2 := { s1 with calls := s1.calls ++ ["openai"] }
  match env.api prompt with
  | Except.error e => (Except.error (PyError.providerError e), s2)
  | Except.ok output_text =>
    let output_tokens := env.tok output_text model
    let tracked :=
      track_request s2.cost_tracker "openai" model
        (input_tokens : ℤ) (output_tokens : ℤ)
    let s3 := { s2 with cost_tracker := tracked.2 }
    match check_budget tracked.2.total_cost cfg.DAILY_BUDGET with
    | BudgetStatus.exceeded =>
      (Except.error (PyError.budgetExceeded cfg.DAILY_BUDGET
        tracked.2.total_cost), s3)
    | _ => (Except.ok output_text, s3)

/-- `LLMProviders.ask_cohere(prompt)` (default `model = Config.COHERE_MODEL`).
Note the source calls `count_tokens(prompt)` and `count_tokens(output_text)`
without a model argument, so the tokenizer is keyed to the default
`"gpt-4o-mini"` here, faithfully to the code. -/
def ask_cohere (cfg : Config) (env : AskEnv) (prompt : String)
    (s : LLMState) : Except PyError String × LLMState :=
  let model := cfg.COHERE_MODEL
  let s1 := wait_cohere cfg env.d_sleep env.d_read s
  let input_tokens := env.tok prompt "gpt-4o-mini"
  let s2 := { s1 with calls := s1.calls ++ ["cohere"] }
  match env.api prompt with
  | Except.error e => (Except.error (PyError.providerError e), s2)
  | Except.ok output_text =>
    let output_tokens := env.tok output_text "gpt-4o-mini"
    let tracked :=
      track_request s2.cost_tracker "cohere" model
        (input_tokens : ℤ) (output_tokens : ℤ)
    let s3 := { s2 with cost_tracker := tracked.2 }
    match check_budget tracked.2.total_cost cfg.DAILY_BUDGET with
    | BudgetStatus.exceeded =>
      (Except.error (PyError.budgetExceeded cfg.DAILY_BUDGET
        tracked.2.total_cost), s3)
    | _ => (Except.ok output_text, s3)

/-- The dictionary `{"provider": ..., "response": ...}` returned by
`ask_with_fallback`. -/
structure FallbackResult where
  provider : String
  response : String
deriving DecidableEq

/-- `LLMProviders.ask_with_fallback(prompt, primary)`: try the primary
provider; the surrounding `except Exception` catches ANY exception from the
primary attempt (including the budget one) and tries the unique other
provider; if the second attempt also raises anything, raise the constant
`Exception("All providers failed")`. -/
def ask_with_fallback (cfg : Config) (envO envC : AskEnv)
    (prompt primary : String) (s : LLMState) :
    Except PyError FallbackResult × LLMState :=
  if primary = "openai" then
    match ask_openai cfg envO prompt s with
    | (Except.ok response, s1) =>
      (Except.ok { provider := "openai", response := response }, s1)
    | (Except.error _, s1) =>
      match ask_cohere cfg envC prompt s1 with
      | (Except.ok response, s2) =>
        (Except.ok { provider := "cohere", response := response }, s2)
      | (Except.error _, s2) => (Except.error PyError.allProvidersFailed, s2)
  else
    match ask_cohere cfg envC prompt s with
    | (Except.ok response, s1) =>
      (Except.ok { provider := "cohere", response := response }, s1)
    | (Except.error _, s1) =>
      match ask_openai cfg envO prompt s1 with
      | (Except.ok response, s2) =>
        (Except.ok { provider := "openai", response := response }, s2)
      | (Except.error _, s2) => (Except.error PyError.allProvidersFailed, s2)

/-- An article dictionary as consumed by `NewsSummarizer.summarize_article`
(the fields produced by `news_api.py`). -/
structure Article where
  title : String
  description : String
  content : String
  url : String
  source : String
  published_at : String
deriving DecidableEq

/-- The result dictionary returned by `summarize_article`. -/
structure SummaryResult where
  title : String
  source : String
  url : String
  summary : String
  sentiment : String
  published_at : String
deriving DecidableEq

/-- The `article_text` f-string of `summarize_article`, with the content
truncated to its first 500 characters. -/
def article_text (a : Article) : String :=
  "Title: " ++ a.title ++ "\nDescription: " ++ a.description ++
    "\nContent: " ++ a.content.take 500

/-- The `summary_prompt` f-string of `summarize_article`. -/
def summary_prompt (a : Article) : String :=
  "Summarize this news article in 2-3 sentences:\n\n" ++ article_text a

/-- The `sentiment_prompt` f-string of `summarize_article`, built from the
step-1 summary. -/
def sentiment_prompt (summary : String) : String :=
  "Analyze the sentiment of this text: \"" ++ summary ++
    "\"\n\nProvide:\n- Overall sentiment (positive/negative/neutral)\n" ++
    "- Confidence (0-100%)\n- Key emotional tone\n\nBe concise (2-3 sentences)."

/-- `NewsSummarizer.summarize_article(article)`, parameterized over the two
bound methods `self.llm_providers.ask_openai` / `ask_cohere` (state type
`σ` stands for the shared `LLMProviders` object they mutate).
Step 1: ask OpenAI for a summary; on any exception, ask Cohere with the
SAME `summary_prompt`, and a failure of that fallback propagates (fatal
for the article).  Step 2: ask Cohere for sentiment on the summary; on any
exception the sentiment degrades to the fixed placeholder
`"Unable to analyze sentiment"` and the result is still returned. -/
def summarize_article {σ : Type}
    (askO askC : String → σ → Except PyError String × σ)
    (article : Article) (s : σ) : Except PyError SummaryResult × σ :=
  let sp := summary_prompt article
  let summaryTry : Except PyError String × σ :=
    match askO sp s with
    | (Except.ok t, s1) => (Except.ok t, s1)
    | (Except.error _, s1) => askC sp s1
  match summaryTry with
  | (Except.error e, s1) => (Except.error e, s1)
  | (Except.ok summary, s1) =>
    match askC (sentiment_prompt summary) s1 with
    | (Except.ok sentiment, s2) =>
      (Except.ok
        { title := article.title, source := article.source,
          url := article.url, summary := summary, sentiment := sentiment,
          published_at := article.published_at }, s2)
    | (Except.error _, s2) =>
      (Except.ok
        { title := article.title, source := article.source,
          url := article.url, summary := summary,
          sentiment := "Unable to analyze sentiment",
          published_at := article.published_at }, s2)

/-- `NewsSummarizer.process_articles(articles)`: loop over the articles,
appending each successful result and swallowing any per-article exception
(the `except` only prints and continues with the next article); the shared
state (the `LLMProviders` object) is threaded through the loop. -/
def process_articles {σ : Type}
    (summarize : Article → σ → Except PyError SummaryResult × σ)
    (articles : List Article) (s : σ) : List SummaryResult × σ :=
  match articles with
  | [] => ([], s)
  | a :: rest =>
    match summarize a s with
    | (Except.ok r, s1) =>
      let tail := process_articles summarize rest s1
      (r :: tail.1, tail.2)
    | (Except.error _, s1) => process_articles summarize rest s1

/-- `AsyncNewsSummarizer.process_articles_async(articles, max_concurrent)`:
one task per article (each task runs `summarize_article` on a thread, here
a function of the article), `asyncio.gather` collects the per-task
outcomes in task-submission order, and the comprehension drops the
exception values.  The semaphore argument `max_concurrent` only bounds how
many tasks run at once; it does not affect which results are produced or
their order. -/
def process_articles_async
    (summarize : Article → Except PyError SummaryResult)
    (articles : List Article) (max_concurrent : ℕ) : List SummaryResult :=
  let results := articles.map summarize
  results.filterMap (fun r =>
    match r with
    | Except.ok v => some v
    | Except.error _ => none)

/-- A configuration with the source's default values: the two model names
from `config.py`, `DAILY_BUDGET = 5.00`, `OPENAI_RPM = 500`,
`COHERE_MODEL_RPM = 50`. -/
def cfg1 : Config :=
  { OPENAI_MODEL := "gpt-4o-mini", COHERE_MODEL := "command-r7b-12-2024",
    DAILY_BUDGET := 5, OPENAI_RPM := 500, COHERE_MODEL_RPM := 50 }

/-- A provider environment whose API call always succeeds with `txt` and
whose tokenizer reports zero tokens; no clock drift. -/
def envOk (txt : String) : AskEnv :=
  { api := fun _ => Except.ok txt, tok := fun _ _ => 0,
    d_sleep := 0, d_read := 0 }

/-- A provider environment whose API call always raises with message `msg`;
no clock drift. -/
def envFail (msg : String) : AskEnv :=
  { api := fun _ => Except.error msg, tok := fun _ _ => 0,
    d_sleep := 0, d_read := 0 }

/-- A provider environment whose API call succeeds but whose prompts and
responses are ten million tokens each, so a single completed call costs
`10 * 0.15 + 10 * 0.60 = 7.5` dollars — past the 5-dollar daily budget. -/
def envBig : AskEnv :=
  { api := fun _ => Except.ok "hello", tok := fun _ _ => 10000000,
    d_sleep := 0, d_read := 0 }

/-- A fresh `LLMProviders` state: empty tracker, `openai_last_call` and
`cohere_last_call` at `0` as in `__init__`, clock at `1000`. -/
def s0 : LLMState :=
  { cost_tracker := CostTracker.init, openai_last_call := 0,
    cohere_last_call := 0, now := 1000, calls := [] }

/-- The state reached from `s0` after `ask_openai cfg1 envBig "hi"`: the
call completed and was tracked at cost `7.5`, after which the budget check
raised. -/
def s1ex : LLMState :=
  { cost_tracker :=
      { total_cost := 15/2,
        requests := [⟨"openai", "gpt-4o-mini", 10000000, 10000000, 15/2⟩] },
    openai_last_call := 1000, cohere_last_call := 0, now := 1000,
    calls := ["openai"] }

/-- The state reached from `s1ex` after the fallback attempt
`ask_cohere cfg1 (envOk "world") "hi"`: the Cohere call completed at zero
cost, was tracked, and its own post-call budget check raised again. -/
def s2bx : LLMState :=
  { cost_tracker :=
      { total_cost := 15/2,
        requests := [⟨"openai", "gpt-4o-mini", 10000000, 10000000, 15/2⟩,
          ⟨"cohere", "command-r7b-12-2024", 0, 0, 0⟩] },
    openai_last_call := 1000, cohere_last_call := 1000, now := 1000,
    calls := ["openai", "cohere"] }

/-- The state reached from `s0` after a failed `ask_openai cfg1
(envFail "boom1") "hi"`: nothing tracked, only the rate-limit stamp and
the call trace moved. -/
def s1f : LLMState :=
  { cost_tracker := CostTracker.init, openai_last_call := 1000,
    cohere_last_call := 0, now := 1000, calls := ["openai"] }

/-- The state reached from `s1f` after a successful fallback
`ask_cohere cfg1 (envOk "world") "hi"` (zero tokens, zero cost, budget
fine). -/
def s2ok : LLMState :=
  { cost_tracker :=
      { total_cost := 0,
        requests := [⟨"cohere", "command-r7b-12-2024", 0, 0, 0⟩] },
    openai_last_call := 1000, cohere_last_call := 1000, now := 1000,
    calls := ["openai", "cohere"] }

/-- A concrete numbered article for batch examples. -/
def artEx (i : ℕ) : Article :=
  { title := toString i, description := "d", content := "c", url := "u",
    source := "s", published_at := "p" }

/-- The result `fEx` produces for article number `i`. -/
def rEx (i : ℕ) : SummaryResult :=
  { title := toString i, source := "s", url := "u", summary := "sum",
    sentiment := "sent", published_at := "p" }

/-- A per-article pipeline that always fails on article number 3 and
succeeds on every other article. -/
def fEx : Article → Except PyError SummaryResult := fun a =>
  if a.title = "3" then
    Except.error (PyError.providerError "summarization failed")
  else
    Except.ok ⟨a.title, a.source, a.url, "sum", "sent", a.published_at⟩

/-- Claim C3: `check_budget(ceiling)` fails (raises) exactly when the
running total is at least the ceiling; when the total lies in
`[0.9 * ceiling, ceiling)` it only emits the non-fatal warning; below
`0.9 * ceiling` it neither warns nor fails.  The running total of a
tracker is never negative, which is the `0 ≤ total` hypothesis. -/
theorem C3_check_budget (total ceiling : ℚ) (htotal : 0 ≤ total) :
    (check_budget total ceiling = BudgetStatus.exceeded ↔ ceiling ≤ total)
    ∧ (check_budget total ceiling = BudgetStatus.warning ↔
        0.9 * ceiling ≤ total ∧ total < ceiling)
    ∧ (total < 0.9 * ceiling → check_budget total ceiling = BudgetStatus.ok) := by
  unfold check_budget
  rw [div_mul_eq_mul_div]
  split_ifs with h1 h2
  · refine ⟨iff_of_true rfl h1, ?_, ?_⟩
    · constructor
      · intro h; exact absurd h (by simp)
      · rintro ⟨_, hb⟩; exfalso; linarith
    · intro h; exfalso; linarith
  · push_neg at h1
    have hc : 0 < ceiling := lt_of_le_of_lt htotal h1
    rw [le_div_iff₀ hc] at h2
    refine ⟨?_, ?_, ?_⟩
    · constructor
      · intro h; exact absurd h (by simp)
      · intro h; linarith
    · constructor
      · intro _; exact ⟨by linarith, h1⟩
      · intro _; rfl
    · intro h; exfalso; linarith
  · push_neg at h1 h2
    refine ⟨?_, ?_, fun _ => rfl⟩
    · constructor
      · intro h; exact absurd h (by simp)
      · intro h; linarith
    · constructor
      · intro h; exact absurd h (by simp)
      · rintro ⟨ha, hb⟩
        have hc : 0 < ceiling := lt_of_le_of_lt htotal hb
        rw [div_lt_iff₀ hc] at h2
        linarith

/-- Witness for C3 at total `9`, ceiling `10` (inside the warning band). -/
theorem C3_check_budget_witness :
    (check_budget 9 10 = BudgetStatus.exceeded ↔ (10 : ℚ) ≤ 9)
    ∧ (check_budget 9 10 = BudgetStatus.warning ↔
        0.9 * 10 ≤ (9 : ℚ) ∧ (9 : ℚ) < 10)
    ∧ ((9 : ℚ) < 0.9 * 10 → check_budget 9 10 = BudgetStatus.ok) :=
  C3_check_budget 9 10 (by norm_num)

/-- Claim C4: `track_request` computes
`cost = input_tokens/1e6 * price_in + output_tokens/1e6 * price_out` from
the static price table, falls back to the conservative default pricing
`(3.0, 15.0)` when the model is unlisted, appends a record, increases the
running total by exactly that cost, and returns that cost.  In particular
for the model with table entry `(0.15, 0.60)` ("gpt-4o-mini"),
`track_request` on `(1000, 500)` tokens from a fresh tracker returns cost
`0.00045` and `get_summary` then reports `total_cost = 0.00045`. -/
theorem C4_track_request (t : CostTracker) (provider model : String)
    (itok otok : ℤ) :
    ((track_request t provider model itok otok).1 =
        (itok : ℚ) / 1000000 * ((PRICING model).getD (3, 15)).1
          + (otok : ℚ) / 1000000 * ((PRICING model).getD (3, 15)).2)
    ∧ ((track_request t provider model itok otok).2.total_cost =
        t.total_cost + (track_request t provider model itok otok).1)
    ∧ ((track_request t provider model itok otok).2.requests =
        t.requests ++ [⟨provider, model, itok, otok,
          (track_request t provider model itok otok).1⟩])
    ∧ (PRICING model = none →
        (track_request t provider model itok otok).1 =
          (itok : ℚ) / 1000000 * 3 + (otok : ℚ) / 1000000 * 15)
    ∧ (track_request CostTracker.init "openai" "gpt-4o-mini" 1000 500).1
        = 0.00045
    ∧ (get_summary
        (track_request CostTracker.init "openai" "gpt-4o-mini" 1000 500).2).total_cost
        = 0.00045 := by
  refine ⟨rfl, rfl, rfl, ?_, ?_, ?_⟩
  · intro h
    simp [track_request, h]
  · norm_num [track_request, PRICING, CostTracker.init]
  · norm_num [track_request, PRICING, CostTracker.init, get_summary]

/-- Witness for C4 at an unlisted model, exercising the default-pricing
branch. -/
theorem C4_track_request_witness :
    (track_request CostTracker.init "openai" "gpt-x" 1000 500).1 =
      (1000 : ℚ) / 1000000 * 3 + (500 : ℚ) / 1000000 * 15 :=
  (C4_track_request CostTracker.init "openai" "gpt-x" 1000 500).2.2.2.1
    (by decide)

/-- The prices in the table, and the default prices, are nonnegative. -/
lemma pricing_nonneg (model : String) :
    0 ≤ ((PRICING model).getD (3, 15)).1
    ∧ 0 ≤ ((PRICING model).getD (3, 15)).2 := by
  unfold PRICING
  split_ifs <;> norm_num

/-- One `track_request` call preserves the total-equals-sum invariant. -/
lemma track_request_invariant (t : CostTracker) (p m : String) (i o : ℤ)
    (h : cost_invariant t) : cost_invariant (track_request t p m i o).2 := by
  unfold cost_invariant at h ⊢
  simp [track_request, h]

/-- Any sequence of `track_request` calls preserves the invariant. -/
lemma track_all_invariant (calls : List (String × String × ℤ × ℤ))
    (t : CostTracker) (h : cost_invariant t) :
    cost_invariant (track_all t calls) := by
  induction calls generalizing t with
  | nil => exact h
  | cons c rest ih =>
    exact ih (track_request t c.1 c.2.1 c.2.2.1 c.2.2.2).2
      (track_request_invariant t c.1 c.2.1 c.2.2.1 c.2.2.2 h)

/-- Claim C5: after every sequence of `track_request` calls starting from a
fresh tracker, the running `total_cost` equals the sum of the `cost`
fields of all appended records, and for nonnegative token counts a
`track_request` call never decreases the running total. -/
theorem C5_cost_invariant :
    (∀ calls : List (String × String × ℤ × ℤ),
        cost_invariant (track_all CostTracker.init calls))
    ∧ (∀ (t : CostTracker) (provider model : String) (i o : ℤ),
        0 ≤ i → 0 ≤ o →
        t.total_cost ≤ (track_request t provider model i o).2.total_cost) := by
  constructor
  · intro calls
    exact track_all_invariant calls CostTracker.init (by simp [cost_invariant, CostTracker.init])
  · intro t provider model i o hi ho
    have hp := pricing_nonneg model
    have hcost : 0 ≤ (track_request t provider model i o).1 := by
      simp only [track_request]
      have h1 : (0 : ℚ) ≤ (i : ℚ) / 1000000 :=
        div_nonneg (by exact_mod_cast hi) (by norm_num)
      have h2 : (0 : ℚ) ≤ (o : ℚ) / 1000000 :=
        div_nonneg (by exact_mod_cast ho) (by norm_num)
      exact add_nonneg (mul_nonneg h1 hp.1) (mul_nonneg h2 hp.2)
    have : (track_request t provider model i o).2.total_cost =
        t.total_cost + (track_request t provider model i o).1 := rfl
    linarith

/-- Witness for C5: a two-call sequence with nonnegative tokens. -/
theorem C5_cost_invariant_witness :
    cost_invariant (track_all CostTracker.init
      [("openai", "gpt-4o-mini", 1000, 500),
       ("cohere", "command-r7b-12-2024", 200, 300)])
    ∧ CostTracker.init.total_cost ≤
        (track_request CostTracker.init "openai" "gpt-4o-mini" 1000 500).2.total_cost :=
  ⟨C5_cost_invariant.1
      [("openai", "gpt-4o-mini", 1000, 500),
       ("cohere", "command-r7b-12-2024", 200, 300)],
   C5_cost_invariant.2 CostTracker.init "openai" "gpt-4o-mini" 1000 500
      (by norm_num) (by norm_num)⟩

/-- Claim C9: `get_summary` on a tracker with zero recorded requests
returns `average_cost = 0`; for every tracker the average is computed as
`total_cost / max(count, 1)` whose divisor is strictly positive, so the
division is guarded in every state.  The call is a pure read by
construction: `get_summary : CostTracker → CostSummary` consumes the
tracker and returns only the summary, mirroring a method that touches no
state. -/
theorem C9_get_summary_safe :
    (get_summary CostTracker.init).average_cost = 0
    ∧ (∀ t : CostTracker,
        (get_summary t).average_cost =
          t.total_cost / ((max t.requests.length 1 : ℕ) : ℚ)
        ∧ (0 : ℚ) < ((max t.requests.length 1 : ℕ) : ℚ)) := by
  refine ⟨by simp [get_summary, CostTracker.init], fun t => ⟨rfl, ?_⟩⟩
  have h1 : (0 : ℕ) < max t.requests.length 1 :=
    lt_of_lt_of_le Nat.zero_lt_one (le_max_right _ _)
  exact_mod_cast h1

/-- Claim C8: in the sequential clock model, for either provider, the
timestamp recorded by a completed rate-limit wait is at least
`min_interval = 60 / quota` later than the previously recorded timestamp —
so two consecutive completed acquisitions for the same provider are
separated by at least `min_interval` seconds — the wait only moves the
clock forward (it delays, never fails, being a total function), and the
interval is `60 / quota-per-minute`.  `d_sleep ≥ 0` is the oversleep of
`time.sleep` and `d_read ≥ 0` the delay of the final `time.time()` read. -/
theorem C8_rate_limit_spacing (cfg : Config) (d_sleep d_read : ℚ)
    (s : LLMState) (hs : 0 ≤ d_sleep) (hr : 0 ≤ d_read) :
    openai_interval cfg ≤
        (wait_openai cfg d_sleep d_read s).openai_last_call - s.openai_last_call
    ∧ s.now ≤ (wait_openai cfg d_sleep d_read s).now
    ∧ cohere_interval cfg ≤
        (wait_cohere cfg d_sleep d_read s).cohere_last_call - s.cohere_last_call
    ∧ s.now ≤ (wait_cohere cfg d_sleep d_read s).now
    ∧ openai_interval cfg = 60 / cfg.OPENAI_RPM
    ∧ cohere_interval cfg = 60 / cfg.COHERE_MODEL_RPM := by
  refine ⟨?_, ?_, ?_, ?_, rfl, rfl⟩
  · simp only [wait_openai]
    split_ifs with h <;> linarith
  · simp only [wait_openai]
    split_ifs with h <;> linarith
  · simp only [wait_cohere]
    split_ifs with h <;> linarith
  · simp only [wait_cohere]
    split_ifs with h <;> linarith

/-- Witness for C8: the default configuration, no drift, a fresh state. -/
theorem C8_rate_limit_spacing_witness :
    openai_interval cfg1 ≤
        (wait_openai cfg1 0 0 s0).openai_last_call - s0.openai_last_call
    ∧ s0.now ≤ (wait_openai cfg1 0 0 s0).now
    ∧ cohere_interval cfg1 ≤
        (wait_cohere cfg1 0 0 s0).cohere_last_call - s0.cohere_last_call
    ∧ s0.now ≤ (wait_cohere cfg1 0 0 s0).now
    ∧ openai_interval cfg1 = 60 / cfg1.OPENAI_RPM
    ∧ cohere_interval cfg1 = 60 / cfg1.COHERE_MODEL_RPM :=
  C8_rate_limit_spacing cfg1 0 0 s0 (by norm_num) (by norm_num)

/-- `ask_openai` invokes the OpenAI client exactly once: the trace grows by
exactly `["openai"]`, whatever the outcome. -/
lemma ask_openai_calls (cfg : Config) (env : AskEnv) (prompt : String)
    (s : LLMState) :
    (ask_openai cfg env prompt s).2.calls = s.calls ++ ["openai"] := by
  unfold ask_openai
  cases h : env.api prompt with
  | error e => simp [h, wait_openai]
  | ok txt =>
    simp only [h]
    split <;> simp [wait_openai]

/-- `ask_cohere` invokes the Cohere client exactly once. -/
lemma ask_cohere_calls (cfg : Config) (env : AskEnv) (prompt : String)
    (s : LLMState) :
    (ask_cohere cfg env prompt s).2.calls = s.calls ++ ["cohere"] := by
  unfold ask_cohere
  cases h : env.api prompt with
  | error e => simp [h, wait_cohere]
  | ok txt =>
    simp only [h]
    split <;> simp [wait_cohere]

/-- If `ask_openai` failed with a provider error (the shape produced only by
a raising client call, before any tracking), the cost tracker is exactly
what it was: no partial update for a call whose response never arrived. -/
lemma ask_openai_tracker_of_providerError (cfg : Config) (env : AskEnv)
    (prompt : String) (s : LLMState) (e : String)
    (h : (ask_openai cfg env prompt s).1 =
      Except.error (PyError.providerError e)) :
    (ask_openai cfg env prompt s).2.cost_tracker = s.cost_tracker := by
  unfold ask_openai at h ⊢
  cases ha : env.api prompt with
  | error e2 => simp [ha, wait_openai]
  | ok txt =>
    exfalso
    simp only [ha] at h
    split at h <;> simp_all

/-- Cohere version of `ask_openai_tracker_of_providerError`. -/
lemma ask_cohere_tracker_of_providerError (cfg : Config) (env : AskEnv)
    (prompt : String) (s : LLMState) (e : String)
    (h : (ask_cohere cfg env prompt s).1 =
      Except.error (PyError.providerError e)) :
    (ask_cohere cfg env prompt s).2.cost_tracker = s.cost_tracker := by
  unfold ask_cohere at h ⊢
  cases ha : env.api prompt with
  | error e2 => simp [ha, wait_cohere]
  | ok txt =>
    exfalso
    simp only [ha] at h
    split at h <;> simp_all

/-- When the primary ("openai") attempt inside `ask_with_fallback` fails
with any exception, the result is exactly the outcome of the secondary
attempt's handler. -/
lemma ask_with_fallback_secondary (cfg : Config) (envO envC : AskEnv)
    (prompt : String) (s s1 : LLMState) (e : PyError)
    (h : ask_openai cfg envO prompt s = (Except.error e, s1)) :
    ask_with_fallback cfg envO envC prompt "openai" s =
      (match ask_cohere cfg envC prompt s1 with
       | (Except.ok r, s2) =>
         (Except.ok { provider := "cohere", response := r }, s2)
       | (Except.error _, s2) =>
         (Except.error PyError.allProvidersFailed, s2)) := by
  unfold ask_with_fallback
  simp [h]

/-- Claim C1 counterexample: with the default configuration and a prompt of
ten million tokens, the primary OpenAI call completes, its post-call
budget check fails (first conjunct: `ask_openai` raises the
budget-exceeded condition at budget `5` and total `7.5`), yet
`ask_with_fallback` does NOT propagate that condition — it raises
`allProvidersFailed` instead (second conjunct) and DOES attempt a call to
the secondary Cohere provider (third conjunct: the API-call trace records
both providers), because the source's `except Exception` handler catches
the budget exception too. -/
theorem C1_counterexample :
    (ask_openai cfg1 envBig "hi" s0).1 =
        Except.error (PyError.budgetExceeded 5 (15/2))
    ∧ (ask_with_fallback cfg1 envBig (envOk "world") "hi" "openai" s0).1 =
        Except.error PyError.allProvidersFailed
    ∧ (ask_with_fallback cfg1 envBig (envOk "world") "hi" "openai" s0).2.calls =
        ["openai", "cohere"] := by
  have h1 : ask_openai cfg1 envBig "hi" s0 =
      (Except.error (PyError.budgetExceeded 5 (15/2)), s1ex) := by
    norm_num [ask_openai, wait_openai, track_request, check_budget, envBig,
      cfg1, s0, s1ex, CostTracker.init, PRICING, openai_interval]
  have h2 : ask_cohere cfg1 (envOk "world") "hi" s1ex =
      (Except.error (PyError.budgetExceeded 5 (15/2)), s2bx) := by
    norm_num [ask_cohere, wait_cohere, track_request, check_budget, envOk,
      cfg1, s1ex, s2bx, PRICING, cohere_interval]
  have hfb := ask_with_fallback_secondary cfg1 envBig (envOk "world") "hi" s0
    s1ex (PyError.budgetExceeded 5 (15/2)) h1
  rw [h2] at hfb
  exact ⟨by rw [h1], by simp [hfb], by simp [hfb, s2bx]⟩

/-- Claim C1, amended: when the primary provider's call completes but the
post-call budget check fails, the budget-exceeded exception is caught by
`ask_with_fallback`'s blanket `except Exception` handler like any other
failure, and a call to the secondary provider IS attempted: the overall
outcome is the secondary attempt's outcome (its text on success,
`allProvidersFailed` if it raises too), and the secondary provider's API
client is invoked. -/
theorem C1_budget_not_propagated (cfg : Config) (envO envC : AskEnv)
    (prompt : String) (s s1 : LLMState) (b tt : ℚ)
    (h : ask_openai cfg envO prompt s =
      (Except.error (PyError.budgetExceeded b tt), s1)) :
    (∀ resp s2, ask_cohere cfg envC prompt s1 = (Except.ok resp, s2) →
        ask_with_fallback cfg envO envC prompt "openai" s =
          (Except.ok { provider := "cohere", response := resp }, s2))
    ∧ (∀ e2 s2, ask_cohere cfg envC prompt s1 = (Except.error e2, s2) →
        ask_with_fallback cfg envO envC prompt "openai" s =
          (Except.error PyError.allProvidersFailed, s2))
    ∧ "cohere" ∈ (ask_with_fallback cfg envO envC prompt "openai" s).2.calls := by
  have hfb := ask_with_fallback_secondary cfg envO envC prompt s s1
    (PyError.budgetExceeded b tt) h
  refine ⟨?_, ?_, ?_⟩
  · intro resp s2 hc
    rw [hfb, hc]
  · intro e2 s2 hc
    rw [hfb, hc]
  · rw [hfb]
    have hcc := ask_cohere_calls cfg envC prompt s1
    cases hc : ask_cohere cfg envC prompt s1 with
    | mk r s2 =>
      rw [hc] at hcc
      cases r <;> simp_all

/-- Witness for the amended C1, at the concrete budget-blown scenario of
`C1_counterexample` (the zero-cost secondary attempt again fails its own
budget check, so the outcome is `allProvidersFailed`). -/
theorem C1_budget_not_propagated_witness :
    ask_with_fallback cfg1 envBig (envOk "world") "hi" "openai" s0 =
      (Except.error PyError.allProvidersFailed, s2bx)
    ∧ "cohere" ∈
        (ask_with_fallback cfg1 envBig (envOk "world") "hi" "openai" s0).2.calls := by
  have h1 : ask_openai cfg1 envBig "hi" s0 =
      (Except.error (PyError.budgetExceeded 5 (15/2)), s1ex) := by
    norm_num [ask_openai, wait_openai, track_request, check_budget, envBig,
      cfg1, s0, s1ex, CostTracker.init, PRICING, openai_interval]
  have h2 : ask_cohere cfg1 (envOk "world") "hi" s1ex =
      (Except.error (PyError.budgetExceeded 5 (15/2)), s2bx) := by
    norm_num [ask_cohere, wait_cohere, track_request, check_budget, envOk,
      cfg1, s1ex, s2bx, PRICING, cohere_interval]
  exact ⟨(C1_budget_not_propagated cfg1 envBig (envOk "world") "hi" s0 s1ex 5
      (15/2) h1).2.1 (PyError.budgetExceeded 5 (15/2)) s2bx h2,
    (C1_budget_not_propagated cfg1 envBig (envOk "world") "hi" s0 s1ex 5
      (15/2) h1).2.2⟩

/-- Claim C2 counterexample, for the conjunct "fails with an
AllProvidersFailed condition that carries both underlying errors": two
executions whose underlying provider errors differ (first three conjuncts)
produce literally the SAME raised condition (fourth and fifth conjuncts),
namely the constant `Exception("All providers failed")` — so the condition
carries neither underlying error. -/
theorem C2_counterexample :
    (envFail "boom1").api "hi" = Except.error "boom1"
    ∧ (envFail "zap1").api "hi" = Except.error "zap1"
    ∧ "boom1" ≠ "zap1"
    ∧ (ask_with_fallback cfg1 (envFail "boom1") (envFail "boom2") "hi" "openai" s0).1 =
        (ask_with_fallback cfg1 (envFail "zap1") (envFail "zap2") "hi" "openai" s0).1
    ∧ (ask_with_fallback cfg1 (envFail "boom1") (envFail "boom2") "hi" "openai" s0).1 =
        Except.error PyError.allProvidersFailed := by
  refine ⟨?_, ?_, ?_, ?_, ?_⟩ <;> decide

/-- Claim C2, amended: if the primary provider's call fails with a
ProviderCallFailure and the secondary attempt succeeds,
`ask_with_fallback` returns the secondary's text with
`provider = "cohere"`; if the secondary's API call also fails, it raises
the constant `allProvidersFailed` condition (which does not carry the
underlying errors — they are only printed); in both cases each provider's
client is invoked exactly once, and when both API calls fail the cost
tracker is never updated at all (no partial update for calls whose
responses never arrived). -/
theorem C2_fallback_behaviour (cfg : Config) (envO envC : AskEnv)
    (prompt : String) (s s1 : LLMState) (e1 : String)
    (h1 : ask_openai cfg envO prompt s =
      (Except.error (PyError.providerError e1), s1)) :
    (∀ resp s2, ask_cohere cfg envC prompt s1 = (Except.ok resp, s2) →
        ask_with_fallback cfg envO envC prompt "openai" s =
          (Except.ok { provider := "cohere", response := resp }, s2)
        ∧ s2.calls = s.calls ++ ["openai", "cohere"])
    ∧ (∀ e2 s2, ask_cohere cfg envC prompt s1 =
          (Except.error (PyError.providerError e2), s2) →
        ask_with_fallback cfg envO envC prompt "openai" s =
          (Except.error PyError.allProvidersFailed, s2)
        ∧ s2.cost_tracker = s.cost_tracker
        ∧ s2.calls = s.calls ++ ["openai", "cohere"]) := by
  have hfb := ask_with_fallback_secondary cfg envO envC prompt s s1
    (PyError.providerError e1) h1
  have hcall1 : s1.calls = s.calls ++ ["openai"] := by
    have := ask_openai_calls cfg envO prompt s
    rw [h1] at this
    exact this
  have htr1 : s1.cost_tracker = s.cost_tracker := by
    have := ask_openai_tracker_of_providerError cfg envO prompt s e1
      (by rw [h1])
    rw [h1] at this
    exact this
  constructor
  · intro resp s2 hc
    have hcall2 : s2.calls = s1.calls ++ ["cohere"] := by
      have := ask_cohere_calls cfg envC prompt s1
      rw [hc] at this
      exact this
    refine ⟨by rw [hfb, hc], ?_⟩
    rw [hcall2, hcall1]
    simp
  · intro e2 s2 hc
    have hcall2 : s2.calls = s1.calls ++ ["cohere"] := by
      have := ask_cohere_calls cfg envC prompt s1
      rw [hc] at this
      exact this
    have htr2 : s2.cost_tracker = s1.cost_tracker := by
      have := ask_cohere_tracker_of_providerError cfg envC prompt s1 e2
        (by rw [hc])
      rw [hc] at this
      exact this
    refine ⟨by rw [hfb, hc], by rw [htr2, htr1], ?_⟩
    rw [hcall2, hcall1]
    simp

/-- Witness for the amended C2: primary fails with "boom1"; one application
where the secondary succeeds with "world", one where it fails with
"boom2". -/
theorem C2_fallback_behaviour_witness :
    (ask_with_fallback cfg1 (envFail "boom1") (envOk "world") "hi" "openai" s0 =
        (Except.ok { provider := "cohere", response := "world" }, s2ok)
      ∧ s2ok.calls = s0.calls ++ ["openai", "cohere"])
    ∧ ((ask_with_fallback cfg1 (envFail "boom1") (envFail "boom2") "hi" "openai" s0).1 =
        Except.error PyError.allProvidersFailed) := by
  have h1 : ask_openai cfg1 (envFail "boom1") "hi" s0 =
      (Except.error (PyError.providerError "boom1"), s1f) := by
    norm_num [ask_openai, wait_openai, envFail, cfg1, s0, s1f,
      CostTracker.init, openai_interval]
  constructor
  · exact (C2_fallback_behaviour cfg1 (envFail "boom1") (envOk "world") "hi" s0
      s1f "boom1" h1).1 "world" s2ok
      (by norm_num [ask_cohere, wait_cohere, track_request, check_budget,
        envOk, cfg1, s1f, s2ok, CostTracker.init, PRICING, cohere_interval])
  · have h := (C2_fallback_behaviour cfg1 (envFail "boom1") (envFail "boom2") "hi"
      s0 s1f "boom1" h1).2 "boom2"
      { s1f with cohere_last_call := 1000, calls := ["openai", "cohere"] }
      (by norm_num [ask_cohere, wait_cohere, envFail, cfg1, s1f,
        CostTracker.init, cohere_interval])
    rw [h.1]

/-- Claim C6: in `summarize_article`, if the summary was produced but the
Cohere sentiment call fails, the article's result is still returned with
the fixed placeholder sentiment (first conjunct); if the primary OpenAI
summarization call fails, the SAME summarization prompt
(`summary_prompt a`) is sent to Cohere and its text becomes the summary
(second conjunct); if that fallback also fails, the whole article fails
with that exception (third conjunct) — summarization failure is fatal for
the article, sentiment failure is not. -/
theorem C6_sentiment_not_fatal {σ : Type}
    (askO askC : String → σ → Except PyError String × σ)
    (a : Article) (s : σ) :
    (∀ t s1 e s2, askO (summary_prompt a) s = (Except.ok t, s1) →
        askC (sentiment_prompt t) s1 = (Except.error e, s2) →
        summarize_article askO askC a s =
          (Except.ok
            ⟨a.title, a.source, a.url, t, "Unable to analyze sentiment",
              a.published_at⟩, s2))
    ∧ (∀ e1 s1 t s2 u s3, askO (summary_prompt a) s = (Except.error e1, s1) →
        askC (summary_prompt a) s1 = (Except.ok t, s2) →
        askC (sentiment_prompt t) s2 = (Except.ok u, s3) →
        summarize_article askO askC a s =
          (Except.ok ⟨a.title, a.source, a.url, t, u, a.published_at⟩, s3))
    ∧ (∀ e1 s1 e2 s2, askO (summary_prompt a) s = (Except.error e1, s1) →
        askC (summary_prompt a) s1 = (Except.error e2, s2) →
        summarize_article askO askC a s = (Except.error e2, s2)) := by
  refine ⟨?_, ?_, ?_⟩
  · intro t s1 e s2 hO hC
    simp [summarize_article, hO, hC]
  · intro e1 s1 t s2 u s3 hO hC1 hC2
    simp [summarize_article, hO, hC1, hC2]
  · intro e1 s1 e2 s2 hO hC
    simp [summarize_article, hO, hC]

/-- Witness for C6, with constant `Unit`-state oracles exercising all three
scenarios. -/
theorem C6_sentiment_not_fatal_witness :
    summarize_article (fun _ (_ : Unit) => (Except.ok "S", ()))
        (fun _ _ => (Except.error (PyError.providerError "x"), ()))
        (artEx 1) () =
      (Except.ok
        ⟨(artEx 1).title, (artEx 1).source, (artEx 1).url, "S",
          "Unable to analyze sentiment", (artEx 1).published_at⟩, ())
    ∧ summarize_article
        (fun _ (_ : Unit) => (Except.error (PyError.providerError "y"), ()))
        (fun _ _ => (Except.ok "T", ())) (artEx 1) () =
      (Except.ok
        ⟨(artEx 1).title, (artEx 1).source, (artEx 1).url, "T", "T",
          (artEx 1).published_at⟩, ())
    ∧ summarize_article
        (fun _ (_ : Unit) => (Except.error (PyError.providerError "y"), ()))
        (fun _ _ => (Except.error (PyError.providerError "z"), ()))
        (artEx 1) () =
      (Except.error (PyError.providerError "z"), ()) :=
  ⟨(C6_sentiment_not_fatal (fun _ (_ : Unit) => (Except.ok "S", ()))
      (fun _ _ => (Except.error (PyError.providerError "x"), ())) (artEx 1) ()).1
      "S" () (PyError.providerError "x") () rfl rfl,
   (C6_sentiment_not_fatal
      (fun _ (_ : Unit) => (Except.error (PyError.providerError "y"), ()))
      (fun _ _ => (Except.ok "T", ())) (artEx 1) ()).2.1
      (PyError.providerError "y") () "T" () "T" () rfl rfl rfl,
   (C6_sentiment_not_fatal
      (fun _ (_ : Unit) => (Except.error (PyError.providerError "y"), ()))
      (fun _ _ => (Except.error (PyError.providerError "z"), ())) (artEx 1) ()).2.2
      (PyError.providerError "y") () (PyError.providerError "z") () rfl rfl⟩

/-- Claim C7: both the serial and the bounded-concurrent batch runner
return one result per successful article and drop each failed article
without aborting the rest: with five articles of which exactly the third
fails, both modes return exactly the four results of articles 1, 2, 4, 5,
in that order. -/
theorem C7_batch_skips_failures {σ : Type}
    (f : Article → Except PyError SummaryResult)
    (a1 a2 a3 a4 a5 : Article) (r1 r2 r4 r5 : SummaryResult) (e : PyError)
    (s : σ) (mc : ℕ)
    (h1 : f a1 = Except.ok r1) (h2 : f a2 = Except.ok r2)
    (h3 : f a3 = Except.error e) (h4 : f a4 = Except.ok r4)
    (h5 : f a5 = Except.ok r5) :
    (process_articles (fun a st => (f a, st)) [a1, a2, a3, a4, a5] s).1 =
        [r1, r2, r4, r5]
    ∧ process_articles_async f [a1, a2, a3, a4, a5] mc = [r1, r2, r4, r5] := by
  constructor
  · simp [process_articles, h1, h2, h3, h4, h5]
  · simp [process_articles_async, h1, h2, h3, h4, h5]

/-- Witness for C7: the concrete pipeline `fEx` failing exactly on article
number 3, with concurrency cap 3. -/
theorem C7_batch_skips_failures_witness :
    (process_articles (fun a (st : Unit) => (fEx a, st))
        [artEx 1, artEx 2, artEx 3, artEx 4, artEx 5] ()).1 =
      [rEx 1, rEx 2, rEx 4, rEx 5]
    ∧ process_articles_async fEx [artEx 1, artEx 2, artEx 3, artEx 4, artEx 5] 3 =
      [rEx 1, rEx 2, rEx 4, rEx 5] :=
  C7_batch_skips_failures fEx (artEx 1) (artEx 2) (artEx 3) (artEx 4) (artEx 5)
    (rEx 1) (rEx 2) (rEx 4) (rEx 5)
    (PyError.providerError "summarization failed") () 3
    (by decide) (by decide) (by decide) (by decide) (by decide)

/-- The serial loop returns exactly the successful results, in input
order. -/
lemma process_articles_eq_filterMap {σ : Type}
    (f : Article → Except PyError SummaryResult)
    (articles : List Article) (s : σ) :
    (process_articles (fun a st => (f a, st)) articles s).1 =
      articles.filterMap (fun a =>
        match f a with
        | Except.ok v => some v
        | Except.error _ => none) := by
  induction articles generalizing s with
  | nil => rfl
  | cons a rest ih =>
    cases h : f a with
    | ok r => simp [process_articles, h, ih, List.filterMap_cons]
    | error err => simp [process_articles, h, ih, List.filterMap_cons]

/-- Claim C10 (implicit): both the serial `process_articles` and the
concurrent `process_articles_async` return the successful results in the
same relative order as the articles appear in the input list — both equal
the input list filter-mapped through the per-article pipeline — because
`asyncio.gather` collects results in task-submission order. -/
theorem C10_results_in_input_order {σ : Type}
    (f : Article → Except PyError SummaryResult)
    (articles : List Article) (s : σ) (mc : ℕ) :
    (process_articles (fun a st => (f a, st)) articles s).1 =
      articles.filterMap (fun a =>
        match f a with
        | Except.ok v => some v
        | Except.error _ => none)
    ∧ process_articles_async f articles mc =
      articles.filterMap (fun a =>
        match f a with
        | Except.ok v => some v
        | Except.error _ => none) := by
  refine ⟨process_articles_eq_filterMap f articles s, ?_⟩
  simp only [process_articles_async, List.filterMap_map]
  rfl

end Day4
